import Mathlib

/-!
Verification of the `line-login` OAuth2 client module (`module/line-login.js`).

The module implements the client side of an OAuth2 Authorization Code flow:
a constructor validating configuration, an `auth()` middleware that generates a
CSRF `state` and replay `nonce`, stores them in the session and redirects to the
provider's authorization URL, a `callback(s, f)` middleware that validates the
returned `state`, exchanges the code for tokens, optionally verifies the signed
id token and its `nonce` claim, and four token-endpoint operations sharing a
uniform HTTP response contract.

The embedding below translates the JavaScript into Lean: JS objects become
structures, `undefined` becomes `Option`, JS truthiness of strings/options is
made explicit, promises/handler invocations become an explicit event trace, and
the two external effectful collaborators (`jwt.verify` and the HTTP transport)
become function parameters (oracles).  External npm dependency `secure-compare`
is embedded by its documented semantics: it returns `false` unless both
arguments are strings, and otherwise compares the strings (in constant time,
which is extensionally plain string equality).
-/

namespace LineLogin

/-- A JavaScript configuration value: the module's documented option types are
strings and (for `verify_id_token`) booleans. -/
inductive JsVal where
  | str (s : String)
  | bool (b : Bool)
deriving DecidableEq, Repr

/-- JS truthiness of a `JsVal`: the empty string and `false` are falsy. -/
def JsVal.truthy : JsVal → Bool
  | .str s => s != ""
  | .bool b => b

/-- JS string coercion of a `JsVal` (as template-string interpolation does). -/
def JsVal.asString : JsVal → String
  | .str s => s
  | .bool b => if b then "true" else "false"

/-- JS truthiness of a possibly-undefined string (`undefined` and `""` are
falsy). -/
def truthyStr : Option String → Bool
  | none => false
  | some s => s != ""

/-- Embedding of the npm `secure-compare` dependency: returns `false` unless
both arguments are strings (so a comparison against a deleted / undefined
session value always fails), and otherwise compares the two strings; the
timing-independent loop of the real implementation is extensionally string
equality. -/
def secure_compare : Option String → Option String → Bool
  | some a, some b => a == b
  | _, _ => false

/-- JS strict equality `===` on possibly-undefined strings: unlike
`secure_compare`, `undefined === undefined` is `true`. -/
def js_strict_eq : Option String → Option String → Bool
  | some a, some b => a == b
  | none, none => true
  | _, _ => false

/-- An `Error` value: the message it carries. -/
structure JsError where
  message : String
deriving DecidableEq, Repr

/-- The options object passed to the constructor: an insertion-ordered list of
key/value pairs (`Object.keys` enumerates in insertion order). -/
def Options := List (String × JsVal)

/-- Lookup `options[k]`: first binding of `k`, `none` for `undefined`. -/
def Options.get (o : Options) (k : String) : Option JsVal :=
  (List.find? (fun p => p.1 == k) o).map (·.2)

/-- Truthiness of `options[k]` (the constructor's `!options[param]` test). -/
def Options.truthyAt (o : Options) (k : String) : Bool :=
  match o.get k with
  | none => false
  | some v => v.truthy

/-- Source list `required_params = ["channel_id", "channel_secret", "callback_url"]`. -/
def required_params : List String := ["channel_id", "channel_secret", "callback_url"]

/-- Source list `optional_params = ["scope", "prompt", "bot_prompt", "session_options", "verify_id_token"]`. -/
def optional_params : List String :=
  ["scope", "prompt", "bot_prompt", "session_options", "verify_id_token"]

/-- The constructed `LineLogin` instance: the fields the constructor assigns. -/
structure Instance where
  channel_id : String
  channel_secret : String
  callback_url : String
  scope : String
  prompt : Option String
  bot_prompt : String
  verify_id_token : Bool
deriving DecidableEq, Repr

/-- Defaulting as in `options.scope || default`: the configured string if truthy, else the
default (a configured boolean is coerced as template interpolation later
would). -/
def orDefault (v : Option JsVal) (d : String) : String :=
  match v with
  | some w => if w.truthy then w.asString else d
  | none => d

/-- The `LineLogin` constructor. Throws (returns `.error`) on the first missing
or falsy required parameter, then on the first configured key outside
`required_params ++ optional_params`; otherwise builds the instance with the
documented defaults (`scope = "profile openid"`, `bot_prompt = "normal"`,
`verify_id_token = true` when the key is absent). -/
def construct (options : Options) : Except JsError Instance :=
  match List.find? (fun param => !options.truthyAt param) required_params with
  | some param => .error ⟨"Required parameter " ++ param ++ " is missing."⟩
  | none =>
    match List.find?
        (fun param => !(required_params.contains param) && !(optional_params.contains param))
        (options.map (·.1)) with
    | some param => .error ⟨param ++ " is not a valid parameter."⟩
    | none =>
      .ok
        { channel_id := ((options.get "channel_id").getD (.str "")).asString
          channel_secret := ((options.get "channel_secret").getD (.str "")).asString
          callback_url := ((options.get "callback_url").getD (.str "")).asString
          scope := orDefault (options.get "scope") "profile openid"
          prompt := (options.get "prompt").map JsVal.asString
          bot_prompt := orDefault (options.get "bot_prompt") "normal"
          verify_id_token :=
            match options.get "verify_id_token" with
            | none => true
            | some v => v.truthy }

/-! ### Authorization URL (`make_auth_url`, `auth`) -/

/-- Uppercase hexadecimal digit for `n < 16`. -/
def hexDigit (n : Nat) : Char :=
  if n < 10 then Char.ofNat (48 + n) else Char.ofNat (55 + n)

/-- Characters `encodeURIComponent` leaves unescaped:
`A-Z a-z 0-9 - _ . ! ~ * ' ( )`. -/
def isUriUnreserved (c : Char) : Bool :=
  c.isAlphanum || c == '-' || c == '_' || c == '.' || c == '!' || c == '~' ||
    c == '*' || c.toNat == 39 || c == '(' || c == ')'

/-- The UTF-8 encoding of a character, as byte values. -/
def utf8Bytes (c : Char) : List Nat :=
  let n := c.toNat
  if n < 128 then [n]
  else if n < 2048 then [192 + n / 64, 128 + n % 64]
  else if n < 65536 then [224 + n / 4096, 128 + (n / 64) % 64, 128 + n % 64]
  else [240 + n / 262144, 128 + (n / 4096) % 64, 128 + (n / 64) % 64, 128 + n % 64]

/-- Percent-encode one UTF-8 byte as `%XX` (uppercase hex). -/
def pctByte (b : Nat) : String :=
  ⟨['%', hexDigit (b / 16), hexDigit (b % 16)]⟩

/-- JS `encodeURIComponent`: unreserved characters pass through, every other
character is replaced by the `%XX` encoding of its UTF-8 bytes. -/
def encodeURIComponent (s : String) : String :=
  String.join (s.data.map fun c =>
    if isUriUnreserved c then String.singleton c
    else String.join ((utf8Bytes c).map pctByte))

/-- Method `make_auth_url(state, nonce)`: builds the provider authorization URL. The
`state` passed by `auth()` is interpolated raw; `prompt` is appended only when
the configured prompt is truthy; `nonce` is appended only when the `nonce`
argument is truthy. -/
def make_auth_url (inst : Instance) (state : String) (nonce : Option String) : String :=
  let url := "https://access.line.me/oauth2/v2.1/authorize?response_type=code&client_id="
    ++ encodeURIComponent inst.channel_id
    ++ "&redirect_uri=" ++ encodeURIComponent inst.callback_url
    ++ "&scope=" ++ encodeURIComponent inst.scope
    ++ "&bot_prompt=" ++ encodeURIComponent inst.bot_prompt
    ++ "&state=" ++ state
  let url := if truthyStr inst.prompt then url ++ "&prompt=" ++ encodeURIComponent (inst.prompt.getD "") else url
  if truthyStr nonce then url ++ "&nonce=" ++ encodeURIComponent (nonce.getD "") else url

/-- The per-user session store: the two keys the module uses
(`req.session.line_login_state`, `req.session.line_login_nonce`);
`none` models an absent/deleted key. -/
structure Session where
  line_login_state : Option String
  line_login_nonce : Option String
deriving DecidableEq, Repr

/-- The `auth()` middleware body, parametrised by the two fresh
`LineLogin._random()` outputs (`crypto.randomBytes(20).toString('hex')`, always
a nonempty 40-character hex string): stores `state` and `nonce` in the session
and redirects to `make_auth_url(state, nonce)`. Returns the redirect URL and
the updated session. -/
def auth (inst : Instance) (state nonce : String) : String × Session :=
  (make_auth_url inst state (some nonce), ⟨some state, some nonce⟩)

/-! ### The callback middleware -/

/-- The query parameters the callback reads (`friendship_status_changed` is
read into a local but never used for control flow). -/
structure Query where
  code : Option String
  state : Option String
  friendship_status_changed : Option String
deriving DecidableEq, Repr

/-- Decoded id-token claims as the flow controller uses them: the `nonce`
claim (possibly absent) plus the remaining payload, kept opaque. -/
structure IdClaims where
  nonce : Option String
  payload : String
deriving DecidableEq, Repr

/-- The parsed token-endpoint response as returned by `issue_access_token`:
the `id_token` field (a compact JWT string, or absent) plus the remaining
fields (`access_token`, `expires_in`, ...), kept opaque since the callback
never touches them. -/
structure TokenResponse where
  id_token : Option String
  rest : String
deriving DecidableEq, Repr

/-- The token response as delivered to the success handler: `id_token` is
either still the raw compact string or has been replaced in place by the
decoded claims. -/
structure TokenResponseOut where
  id_token : Option (String ⊕ IdClaims)
  rest : String
deriving DecidableEq, Repr

/-- A token response delivered with its `id_token` field unchanged. -/
def TokenResponse.asOut (t : TokenResponse) : TokenResponseOut :=
  ⟨t.id_token.map Sum.inl, t.rest⟩

/-- One caller-visible handler invocation: `f(error)` or `s(token_response)`. -/
inductive CbEvent where
  | fail (e : JsError)
  | succeed (t : TokenResponseOut)
deriving DecidableEq, Repr

/-- Everything observable about one callback invocation: the handler
invocations in order, whether `issue_access_token` was invoked, whether
`jwt.verify` was invoked, and the final session store. -/
structure CallbackResult where
  events : List CbEvent
  exchange_called : Bool
  jwt_verify_called : Bool
  session : Session
deriving DecidableEq, Repr

/-- Error value `new Error("Authorization failed.")`. -/
def authFailedErr : JsError := ⟨"Authorization failed."⟩

/-- Error value `new Error("Authorization failed. State does not match.")`. -/
def stateMismatchErr : JsError := ⟨"Authorization failed. State does not match."⟩

/-- Error value `new Error("Verification of id token failed.")`. -/
def idTokenVerifErr : JsError := ⟨"Verification of id token failed."⟩

/-- The session after `delete req.session.line_login_state; delete
req.session.line_login_nonce`. -/
def clearedSession : Session := ⟨none, none⟩

/-- The `callback(s, f)` middleware body (with a failure handler `f`
supplied), parametrised by the comparison function used for the state and
nonce checks (the source uses `secure_compare` at both sites) and by the two
external effectful collaborators:
`jwtVerify raw` models `jwt.verify(raw, channel_secret, {audience, issuer,
algorithms: ["HS256"]})` — `some claims` when signature/audience/issuer/expiry
validate, `none` when it throws — and `exchange code` models the
`issue_access_token(code)` promise.

Control flow, transliterated: missing (falsy) `code` returns the
"Authorization failed." failure; a failed state comparison returns the state
mismatch failure; then the code is exchanged, a rejected exchange reaches the
`.catch` and fails with the exchange error; on a resolved exchange, if
`verify_id_token` and the response's `id_token` are truthy the token is
verified and its `nonce` claim compared — on either verification failure the
`catch` block invokes the failure handler *without returning*, so execution
falls through to the session deletion and the success-handler call with the
still-raw token response. -/
def callbackWith (cmp : Option String → Option String → Bool)
    (inst : Instance) (jwtVerify : String → Option IdClaims)
    (exchange : String → Except JsError TokenResponse)
    (sess : Session) (q : Query) : CallbackResult :=
  if !truthyStr q.code then
    ⟨[.fail authFailedErr], false, false, sess⟩
  else if !cmp sess.line_login_state q.state then
    ⟨[.fail stateMismatchErr], false, false, sess⟩
  else
    match exchange (q.code.getD "") with
    | .error e => ⟨[.fail e], true, false, sess⟩
    | .ok tr =>
      if inst.verify_id_token && truthyStr tr.id_token then
        match jwtVerify (tr.id_token.getD "") with
        | none =>
          ⟨[.fail idTokenVerifErr, .succeed tr.asOut], true, true, clearedSession⟩
        | some decoded_id_token =>
          if !cmp decoded_id_token.nonce sess.line_login_nonce then
            ⟨[.fail idTokenVerifErr, .succeed tr.asOut], true, true, clearedSession⟩
          else
            ⟨[.succeed ⟨some (Sum.inr decoded_id_token), tr.rest⟩], true, true, clearedSession⟩
      else
        ⟨[.succeed tr.asOut], true, false, clearedSession⟩

/-- The callback as shipped: both secret comparisons use `secure_compare`. -/
def callback (inst : Instance) (jwtVerify : String → Option IdClaims)
    (exchange : String → Except JsError TokenResponse)
    (sess : Session) (q : Query) : CallbackResult :=
  callbackWith secure_compare inst jwtVerify exchange sess q

/-! ### Token-endpoint operations -/

/-- The transport-level response the `request` library hands to each `.then`
handler. -/
structure HttpResponse where
  statusCode : Nat
  statusMessage : String
  body : String
deriving DecidableEq, Repr

/-- The `.then` handler of `issue_access_token`: on status 200 parse the body
(`JSON.parse`, kept as the `parse` parameter), otherwise reject with an error
carrying the status message. -/
def issue_access_token_then {α : Type} (parse : String → α)
    (response : HttpResponse) : Except JsError α :=
  if response.statusCode == 200 then .ok (parse response.body)
  else .error ⟨response.statusMessage⟩

/-- The `.then` handler of `verify_access_token`: same contract. -/
def verify_access_token_then {α : Type} (parse : String → α)
    (response : HttpResponse) : Except JsError α :=
  if response.statusCode == 200 then .ok (parse response.body)
  else .error ⟨response.statusMessage⟩

/-- The `.then` handler of `refresh_access_token`: same contract. -/
def refresh_access_token_then {α : Type} (parse : String → α)
    (response : HttpResponse) : Except JsError α :=
  if response.statusCode == 200 then .ok (parse response.body)
  else .error ⟨response.statusMessage⟩

/-- The `.then` handler of `revoke_access_token`: on status 200 resolve with
`null` (the body is ignored), otherwise reject with the status message. -/
def revoke_access_token_then (response : HttpResponse) : Except JsError (Option Unit) :=
  if response.statusCode == 200 then .ok none
  else .error ⟨response.statusMessage⟩

/-! ### Shared sample inputs and helper lemmas -/

/-- A well-formed options object (the three required keys). -/
def sampleOptions : Options :=
  [("channel_id", .str "cid"), ("channel_secret", .str "secret"),
   ("callback_url", .str "https://example.com/cb")]

/-- The instance `construct sampleOptions` produces. -/
def sampleInst : Instance :=
  { channel_id := "cid", channel_secret := "secret"
    callback_url := "https://example.com/cb", scope := "profile openid"
    prompt := none, bot_prompt := "normal", verify_id_token := true }

/-- Comparing with `secure_compare` against a deleted (undefined) stored value always fails. -/
theorem secure_compare_none_left (x : Option String) : secure_compare none x = false := by
  cases x <;> rfl

/-- A key is recognized when it is a required or an optional parameter. -/
def recognized (k : String) : Bool :=
  required_params.contains k || optional_params.contains k

/-! ### C4: the callback checks its inputs in order and short-circuits -/

/-- C4: a callback with a falsy `code` fails with "Authorization failed." for
every session and every state value, reading nothing else (result independent
of the session contents, the oracles and the state parameter; no exchange, no
verification, session untouched); and a callback with `code` present but a
state comparison failure fails with the state-mismatch error without invoking
the token exchange (`exchange_called = false`, result independent of the
exchange oracle and of the stored nonce). -/
theorem c4_callback_short_circuits (inst : Instance) (jv : String → Option IdClaims)
    (ex : String → Except JsError TokenResponse) (sess : Session) (q : Query) :
    (truthyStr q.code = false →
      callback inst jv ex sess q = ⟨[.fail authFailedErr], false, false, sess⟩) ∧
    (truthyStr q.code = true → secure_compare sess.line_login_state q.state = false →
      callback inst jv ex sess q = ⟨[.fail stateMismatchErr], false, false, sess⟩) := by
  refine ⟨fun h => ?_, fun h h2 => ?_⟩ <;> simp [callback, callbackWith, h]
  simp [h2]

/-- Witness for C4 at concrete inputs: a missing `code`, then a mismatched
state. -/
theorem c4_witness :
    callback sampleInst (fun _ => none) (fun _ => .error ⟨"boom"⟩)
        ⟨some "st", some "non"⟩ ⟨none, some "st", none⟩
      = ⟨[.fail authFailedErr], false, false, ⟨some "st", some "non"⟩⟩ ∧
    callback sampleInst (fun _ => none) (fun _ => .error ⟨"boom"⟩)
        ⟨some "st", some "non"⟩ ⟨some "codeZ", some "WRONG", none⟩
      = ⟨[.fail stateMismatchErr], false, false, ⟨some "st", some "non"⟩⟩ :=
  ⟨(c4_callback_short_circuits sampleInst (fun _ => none) (fun _ => .error ⟨"boom"⟩)
      ⟨some "st", some "non"⟩ ⟨none, some "st", none⟩).1 (by decide),
   (c4_callback_short_circuits sampleInst (fun _ => none) (fun _ => .error ⟨"boom"⟩)
      ⟨some "st", some "non"⟩ ⟨some "codeZ", some "WRONG", none⟩).2 (by decide) (by decide)⟩

/-! ### C5: a consumed state is never accepted twice -/

/-- A callback resolving with exactly one success event has deleted the stored
state and nonce, and its `code` parameter was truthy. -/
theorem callback_success_state (inst : Instance) (jv : String → Option IdClaims)
    (ex : String → Except JsError TokenResponse) (sess : Session) (q : Query)
    (t : TokenResponseOut)
    (h : (callback inst jv ex sess q).events = [CbEvent.succeed t]) :
    (callback inst jv ex sess q).session = clearedSession ∧ truthyStr q.code = true := by
  unfold callback callbackWith at h ⊢
  by_cases hc : truthyStr q.code = true
  case neg => simp [hc] at h
  case pos =>
  by_cases hs : secure_compare sess.line_login_state q.state = true
  case neg =>
    simp only [Bool.not_eq_true] at hs
    simp [hc, hs] at h
  case pos =>
  simp only [hc, hs, Bool.not_true, Bool.false_eq_true, if_false] at h ⊢
  rcases hex : ex (q.code.getD "") with e | tr
  · simp [hex] at h
  · simp only [hex] at h ⊢
    by_cases hg : (inst.verify_id_token && truthyStr tr.id_token) = true
    case neg =>
      simp only [Bool.not_eq_true] at hg
      simp [hg, hc]
    case pos =>
    simp only [hg, if_true] at h ⊢
    rcases hjv : jv (tr.id_token.getD "") with _ | claims
    · simp [hjv] at h
    · simp only [hjv] at h ⊢
      by_cases hn : secure_compare claims.nonce sess.line_login_nonce = true
      case neg =>
        simp only [Bool.not_eq_true] at hn
        simp [hn] at h
      case pos => simp [hn, hc]

/-- C5: when a callback resolves with exactly one success event (so the stored
state and nonce have been deleted), replaying the same query parameters
against the resulting session fails with the state-mismatch error, whatever
the oracles do on the second run. -/
theorem c5_replay_after_success_rejected (inst : Instance)
    (jv jv2 : String → Option IdClaims)
    (ex ex2 : String → Except JsError TokenResponse) (sess : Session) (q : Query)
    (t : TokenResponseOut)
    (h : (callback inst jv ex sess q).events = [CbEvent.succeed t]) :
    callback inst jv2 ex2 (callback inst jv ex sess q).session q
      = ⟨[.fail stateMismatchErr], false, false, (callback inst jv ex sess q).session⟩ := by
  obtain ⟨hsess, hc⟩ := callback_success_state inst jv ex sess q t h
  rw [hsess]
  simp [callback, callbackWith, hc, clearedSession, secure_compare_none_left]

/-- Witness for C5: a concrete full-success callback, then a replay of the
same query, which is rejected with the state-mismatch error. -/
theorem c5_witness :
    callback sampleInst (fun _ => some ⟨some "non", "claims"⟩)
        (fun _ => .ok ⟨some "rawjwt", "tokens"⟩)
        (callback sampleInst (fun _ => some ⟨some "non", "claims"⟩)
          (fun _ => .ok ⟨some "rawjwt", "tokens"⟩)
          ⟨some "st", some "non"⟩ ⟨some "codeA", some "st", none⟩).session
        ⟨some "codeA", some "st", none⟩
      = ⟨[.fail stateMismatchErr], false, false,
          (callback sampleInst (fun _ => some ⟨some "non", "claims"⟩)
            (fun _ => .ok ⟨some "rawjwt", "tokens"⟩)
            ⟨some "st", some "non"⟩ ⟨some "codeA", some "st", none⟩).session⟩ :=
  c5_replay_after_success_rejected sampleInst
    (fun _ => some ⟨some "non", "claims"⟩) (fun _ => some ⟨some "non", "claims"⟩)
    (fun _ => .ok ⟨some "rawjwt", "tokens"⟩) (fun _ => .ok ⟨some "rawjwt", "tokens"⟩)
    ⟨some "st", some "non"⟩ ⟨some "codeA", some "st", none⟩
    ⟨some (Sum.inr ⟨some "non", "claims"⟩), "tokens"⟩ (by decide)

/-! ### C6: both secret comparisons use the constant-time abstraction -/

/-- A session whose stored state is absent, queried with an absent state:
the equality-operator variant would accept it, `secure_compare` rejects it. -/
def c6_sess_state : Session := ⟨none, some "non"⟩

/-- Query with truthy code and absent state, for the state-site distinction. -/
def c6_q_state : Query := ⟨some "codeC", none, none⟩

/-- A session whose stored nonce is absent, paired with a decoded token whose
nonce claim is also absent, for the nonce-site distinction. -/
def c6_sess_nonce : Session := ⟨some "st", none⟩

/-- Query with truthy code and the matching state, for the nonce-site
distinction. -/
def c6_q_nonce : Query := ⟨some "codeD", some "st", none⟩

/-- Exchange oracle resolving with a token response carrying an id token. -/
def c6_exchange : String → Except JsError TokenResponse :=
  fun _ => .ok ⟨some "rawjwt", "tokens"⟩

/-- Verifier oracle accepting the token with an absent nonce claim. -/
def c6_jwtVerify : String → Option IdClaims := fun _ => some ⟨none, "claims"⟩

/-- C6: the callback's two secret-token checks are the constant-time
comparison abstraction, not the plain equality operator: the shipped callback
coincides with `callbackWith secure_compare` on every input, and substituting
JS strict equality (`===`) changes the observable outcome both at the
state-check site (an absent stored state compared with an absent query state)
and at the nonce-check site (an absent nonce claim compared with an absent
stored nonce) — so neither comparison is extensionally the plain equality
operator. -/
theorem c6_secret_checks_use_secure_compare :
    (∀ inst jv ex sess q,
      callback inst jv ex sess q = callbackWith secure_compare inst jv ex sess q) ∧
    callbackWith secure_compare sampleInst c6_jwtVerify c6_exchange c6_sess_state c6_q_state
      ≠ callbackWith js_strict_eq sampleInst c6_jwtVerify c6_exchange c6_sess_state c6_q_state ∧
    callbackWith secure_compare sampleInst c6_jwtVerify c6_exchange c6_sess_nonce c6_q_nonce
      ≠ callbackWith js_strict_eq sampleInst c6_jwtVerify c6_exchange c6_sess_nonce c6_q_nonce :=
  ⟨fun _ _ _ _ _ => rfl, by decide, by decide⟩

/-! ### C7: uniform token-endpoint response contract -/

/-- C7: each of the four token-endpoint `.then` handlers resolves on an HTTP
200 with the parsed body — `null` for revoke — and on any other status rejects
with an error whose message is the provider's status message (for every body,
so the body never reaches the error). -/
theorem c7_token_endpoint_contract {α : Type} (parse : String → α) (r : HttpResponse) :
    (r.statusCode = 200 →
      issue_access_token_then parse r = .ok (parse r.body) ∧
      refresh_access_token_then parse r = .ok (parse r.body) ∧
      verify_access_token_then parse r = .ok (parse r.body) ∧
      revoke_access_token_then r = .ok none) ∧
    (r.statusCode ≠ 200 →
      issue_access_token_then parse r = .error ⟨r.statusMessage⟩ ∧
      refresh_access_token_then parse r = .error ⟨r.statusMessage⟩ ∧
      verify_access_token_then parse r = .error ⟨r.statusMessage⟩ ∧
      revoke_access_token_then r = .error ⟨r.statusMessage⟩) := by
  constructor <;> intro h <;>
    simp [issue_access_token_then, refresh_access_token_then, verify_access_token_then,
      revoke_access_token_then, h]

/-- Witness for C7 at a 200 response and at a 404 response. -/
theorem c7_witness :
    (issue_access_token_then id ⟨200, "OK", "bodyA"⟩ = .ok "bodyA" ∧
      refresh_access_token_then id ⟨200, "OK", "bodyA"⟩ = .ok "bodyA" ∧
      verify_access_token_then id ⟨200, "OK", "bodyA"⟩ = .ok "bodyA" ∧
      revoke_access_token_then ⟨200, "OK", "bodyA"⟩ = .ok none) ∧
    (issue_access_token_then id ⟨404, "Not Found", "bodyB"⟩ = .error ⟨"Not Found"⟩ ∧
      refresh_access_token_then id ⟨404, "Not Found", "bodyB"⟩ = .error ⟨"Not Found"⟩ ∧
      verify_access_token_then id ⟨404, "Not Found", "bodyB"⟩ = .error ⟨"Not Found"⟩ ∧
      revoke_access_token_then ⟨404, "Not Found", "bodyB"⟩ = .error ⟨"Not Found"⟩) :=
  ⟨(c7_token_endpoint_contract id ⟨200, "OK", "bodyA"⟩).1 rfl,
   (c7_token_endpoint_contract id ⟨404, "Not Found", "bodyB"⟩).2 (by decide)⟩

/-! ### C8: constructor validation -/

/-- C8: construction succeeds for every options object whose keys are all
recognized and whose three required values are truthy (non-empty); an options
object with some required key missing or falsy throws an error naming a
missing required key (the first one, in the declared order); and an options
object containing an unrecognized key always throws a construction-time
error. -/
theorem c8_constructor_validation (o : Options) :
    ((∀ k ∈ o.map (·.1), recognized k = true) →
      (∀ p ∈ required_params, o.truthyAt p = true) → ∃ inst, construct o = .ok inst) ∧
    ((∃ p ∈ required_params, o.truthyAt p = false) →
      ∃ p ∈ required_params, o.truthyAt p = false ∧
        construct o = .error ⟨"Required parameter " ++ p ++ " is missing."⟩) ∧
    ((∃ k ∈ o.map (·.1), recognized k = false) → ∃ e, construct o = .error e) := by
  refine ⟨fun hk hp => ?_, fun ⟨p, hp, hfalsy⟩ => ?_, fun ⟨k, hk, hunrec⟩ => ?_⟩
  · have h1 : List.find? (fun param => !o.truthyAt param) required_params = none := by
      rw [List.find?_eq_none]
      intro x hx
      simp [hp x hx]
    have h2 : List.find?
        (fun param => !(required_params.contains param) && !(optional_params.contains param))
        (o.map (·.1)) = none := by
      rw [List.find?_eq_none]
      intro x hx
      have := hk x hx
      simp only [recognized, Bool.or_eq_true] at this
      rcases this with h | h <;> simp [List.mem_of_elem_eq_true h]
    exact ⟨_, by rw [construct, h1, h2]⟩
  · rcases hf : List.find? (fun param => !o.truthyAt param) required_params with _ | p'
    · exact absurd (List.find?_eq_none.mp hf p hp) (by simp [hfalsy])
    · refine ⟨p', List.mem_of_find?_eq_some hf, ?_, ?_⟩
      · have := List.find?_some hf
        simpa using this
      · rw [construct, hf]
  · rcases hf : List.find? (fun param => !o.truthyAt param) required_params with _ | p'
    · rcases hf2 : List.find?
          (fun param => !(required_params.contains param) && !(optional_params.contains param))
          (o.map (·.1)) with _ | k'
      · have hcontra := List.find?_eq_none.mp hf2 k hk
        simp only [recognized, Bool.or_eq_false_iff] at hunrec
        exact absurd (by rw [hunrec.1, hunrec.2]; rfl :
          (!required_params.contains k && !optional_params.contains k) = true) hcontra
      · exact ⟨_, by rw [construct, hf, hf2]⟩
    · exact ⟨_, by rw [construct, hf]⟩

/-- Whether an `Except` result is a success (`.ok`). -/
def exOk {ε α : Type} : Except ε α → Bool
  | .ok _ => true
  | .error _ => false

/-- Options object missing `callback_url`. -/
def c8_missing : Options :=
  [("channel_id", .str "cid"), ("channel_secret", .str "secret")]

/-- Options object with all required keys plus an unrecognized one. -/
def c8_unknown : Options :=
  [("channel_id", .str "cid"), ("channel_secret", .str "secret"),
   ("callback_url", .str "https://example.com/cb"), ("invalid_param", .str "x")]

/-- Witness for C8: a valid configuration constructs, a configuration missing
`callback_url` errors naming it, and a configuration with an unrecognized key
errors. -/
theorem c8_witness :
    exOk (construct sampleOptions) = true ∧
    construct c8_missing = .error ⟨"Required parameter callback_url is missing."⟩ ∧
    exOk (construct c8_unknown) = false := by
  refine ⟨?_, ?_, ?_⟩
  · obtain ⟨inst, h⟩ :=
      (c8_constructor_validation sampleOptions).1 (by decide) (by decide)
    rw [h]; rfl
  · obtain ⟨p, hp, hfalsy, herr⟩ :=
      (c8_constructor_validation c8_missing).2.1 ⟨"callback_url", by decide, by decide⟩
    simp only [required_params, List.mem_cons, List.not_mem_nil, or_false] at hp
    rcases hp with rfl | rfl | rfl
    · exact absurd hfalsy (by decide)
    · exact absurd hfalsy (by decide)
    · exact herr
  · obtain ⟨e, he⟩ :=
      (c8_constructor_validation c8_unknown).2.2 ⟨"invalid_param", by decide, by decide⟩
    rw [he]; rfl

/-! ### C1 / C3: the missing `return` in the verification `catch` block -/

/-- C1: at a callback whose id-token verification fails (here: `jwt.verify`
rejects the signature), the `catch` block invokes the failure handler with the
verification error but does not return, so execution falls through, deletes
the session values and ALSO invokes the success handler with the raw
(unverified) token response: the event trace contains both handler
invocations, contradicting the specified behavior that only the failure
handler runs and the raw response is discarded. -/
theorem c1_verification_failure_invokes_both_handlers :
    callback sampleInst (fun _ => none) (fun _ => .ok ⟨some "rawjwtA", "tokensA"⟩)
        ⟨some "stA", some "nonA"⟩ ⟨some "codeA", some "stA", none⟩
      = ⟨[.fail idTokenVerifErr, .succeed ⟨some (Sum.inl "rawjwtA"), "tokensA"⟩],
          true, true, clearedSession⟩ := by
  decide

/-- C3: at a callback where the token's signature, audience and issuer all
validate (`jwt.verify` returns decoded claims) but the decoded nonce claim
differs from the stored nonce, the failure handler is invoked with the
id-token verification error — but, through the same missing `return`, the
success handler is also invoked with the raw token response, so a mismatched
nonce still reaches the success path. -/
theorem c3_nonce_mismatch_fails_but_also_succeeds :
    callback sampleInst (fun _ => some ⟨some "otherNonce", "claimsB"⟩)
        (fun _ => .ok ⟨some "rawjwtB", "tokensB"⟩)
        ⟨some "stB", some "nonB"⟩ ⟨some "codeB", some "stB", none⟩
      = ⟨[.fail idTokenVerifErr, .succeed ⟨some (Sum.inl "rawjwtB"), "tokensB"⟩],
          true, true, clearedSession⟩ := by
  decide

/-! ### C2: when the stored state and nonce are deleted -/

/-- Counterexample to C2: a callback that fails with a state mismatch leaves
the stored state and nonce in the session — they are not deleted on this
failure outcome. -/
theorem c2_counterexample_state_mismatch_keeps_session :
    (callback sampleInst (fun _ => none) (fun _ => .error ⟨"boom"⟩)
        ⟨some "stC", some "nonC"⟩ ⟨some "codeC", some "OTHER", none⟩).session
      = ⟨some "stC", some "nonC"⟩ ∧
    (callback sampleInst (fun _ => none) (fun _ => .error ⟨"boom"⟩)
        ⟨some "stC", some "nonC"⟩ ⟨some "codeC", some "OTHER", none⟩).session
      ≠ clearedSession := by
  decide

/-- C2 amended: the stored state and nonce are deleted exactly when the token
exchange resolves successfully (the full-success path and — via the missing
`return` — the id-token-verification-failure path); on the missing-code,
state-mismatch and exchange-error outcomes the session keeps its values. -/
theorem c2_session_cleared_iff_exchange_resolves (inst : Instance)
    (jv : String → Option IdClaims) (ex : String → Except JsError TokenResponse)
    (sess : Session) (q : Query) :
    (callback inst jv ex sess q).session =
      (if truthyStr q.code && secure_compare sess.line_login_state q.state
          && exOk (ex (q.code.getD "")) then clearedSession else sess) := by
  unfold callback callbackWith
  by_cases hc : truthyStr q.code = true
  case neg =>
    simp only [Bool.not_eq_true] at hc
    simp [hc]
  case pos =>
  by_cases hs : secure_compare sess.line_login_state q.state = true
  case neg =>
    simp only [Bool.not_eq_true] at hs
    simp [hc, hs]
  case pos =>
  simp only [hc, hs, Bool.not_true, Bool.false_eq_true, if_false, Bool.and_true, Bool.true_and]
  rcases hex : ex (q.code.getD "") with e | tr
  · simp [exOk]
  · simp only [exOk, if_true]
    by_cases hg : (inst.verify_id_token && truthyStr tr.id_token) = true
    case neg =>
      simp only [Bool.not_eq_true] at hg
      simp [hg]
    case pos =>
    simp only [hg, if_true]
    rcases jv (tr.id_token.getD "") with _ | claims
    · rfl
    · by_cases hn : secure_compare claims.nonce sess.line_login_nonce = true
      case neg =>
        simp only [Bool.not_eq_true] at hn
        simp [hn]
      case pos => simp [hn]

/-! ### C9: the authorization URL built at initiation -/

/-- An instance with identity-token verification disabled. -/
def instNoVerify : Instance := { sampleInst with verify_id_token := false }

/-- Counterexample to C9: with identity-token verification disabled, the
authorization URL built at initiation still carries the `nonce` parameter —
`auth()` always generates a nonce and `make_auth_url` appends any truthy
nonce, independently of the `verify_id_token` toggle. -/
theorem c9_counterexample_nonce_appended_without_verification :
    instNoVerify.verify_id_token = false ∧
    (auth instNoVerify "state1" "nonce1").1 =
      "https://access.line.me/oauth2/v2.1/authorize?response_type=code&client_id=cid&redirect_uri=https%3A%2F%2Fexample.com%2Fcb&scope=profile%20openid&bot_prompt=normal&state=state1&nonce=nonce1" := by
  set_option maxRecDepth 4096 in decide

/-- The fixed leading part of the authorization URL: response type `code`,
percent-encoded client id, redirect URL, scope, bot prompt, and the raw
state. -/
def auth_url_base (inst : Instance) (state : String) : String :=
  "https://access.line.me/oauth2/v2.1/authorize?response_type=code&client_id="
    ++ encodeURIComponent inst.channel_id
    ++ "&redirect_uri=" ++ encodeURIComponent inst.callback_url
    ++ "&scope=" ++ encodeURIComponent inst.scope
    ++ "&bot_prompt=" ++ encodeURIComponent inst.bot_prompt
    ++ "&state=" ++ state

/-- C9 amended: the initiation URL is the base (response type, client id,
encoded redirect URL, encoded scope, bot prompt, fresh state), with the
encoded prompt appended iff a prompt is configured (truthy), and the encoded
nonce appended iff the generated nonce is nonempty — hence always, since
initiation always generates a 40-character random nonce, regardless of the
verification toggle; and both fresh values are stored in the session. -/
theorem c9_auth_url_components (inst : Instance) (state nonce : String) :
    auth inst state nonce =
      ((if truthyStr inst.prompt then
          auth_url_base inst state ++ "&prompt=" ++ encodeURIComponent (inst.prompt.getD "")
        else auth_url_base inst state)
        ++ (if nonce != "" then "&nonce=" ++ encodeURIComponent nonce else ""),
       ⟨some state, some nonce⟩) := by
  unfold auth make_auth_url auth_url_base
  simp only [truthyStr]
  by_cases hp : truthyStr inst.prompt = true
  all_goals by_cases hn : (nonce != "") = true
  all_goals simp_all [truthyStr, String.append_assoc]

/-! ### C10: verification is attempted iff enabled and an id token is present -/

/-- C10: on a callback with truthy code, matching state and a successful
exchange, if the token response carries no id token the callback delivers the
response unchanged to the success handler with no verification (even when the
toggle is enabled); and in general `jwt.verify` is invoked exactly when the
toggle is on and the response's id token is truthy. -/
theorem c10_verification_iff_toggle_and_token (inst : Instance)
    (jv : String → Option IdClaims) (ex : String → Except JsError TokenResponse)
    (sess : Session) (q : Query) (tr : TokenResponse)
    (hc : truthyStr q.code = true)
    (hs : secure_compare sess.line_login_state q.state = true)
    (hex : ex (q.code.getD "") = .ok tr) :
    (tr.id_token = none →
      callback inst jv ex sess q = ⟨[.succeed tr.asOut], true, false, clearedSession⟩) ∧
    (callback inst jv ex sess q).jwt_verify_called
      = (inst.verify_id_token && truthyStr tr.id_token) := by
  unfold callback callbackWith
  simp only [hc, hs, Bool.not_true, Bool.false_eq_true, if_false, hex]
  constructor
  · intro hid
    simp [hid, truthyStr]
  · by_cases hg : (inst.verify_id_token && truthyStr tr.id_token) = true
    case pos =>
      simp only [hg, if_true]
      rcases jv (tr.id_token.getD "") with _ | claims
      · rfl
      · by_cases hn : secure_compare claims.nonce sess.line_login_nonce = true
        case pos => simp [hn]
        case neg =>
          simp only [Bool.not_eq_true] at hn
          simp [hn]
    case neg =>
      simp only [Bool.not_eq_true] at hg
      simp [hg]

/-- Witness for C10: verification enabled, successful exchange with no id
token — the callback succeeds with the unchanged response and `jwt.verify`
is never invoked. -/
theorem c10_witness :
    callback sampleInst (fun _ => none) (fun _ => .ok ⟨none, "tokensE"⟩)
        ⟨some "stE", some "nonE"⟩ ⟨some "codeE", some "stE", none⟩
      = ⟨[.succeed ⟨none, "tokensE"⟩], true, false, clearedSession⟩ ∧
    (callback sampleInst (fun _ => none) (fun _ => .ok ⟨none, "tokensE"⟩)
        ⟨some "stE", some "nonE"⟩ ⟨some "codeE", some "stE", none⟩).jwt_verify_called
      = false :=
  have h := c10_verification_iff_toggle_and_token sampleInst (fun _ => none)
    (fun _ => .ok ⟨none, "tokensE"⟩) ⟨some "stE", some "nonE"⟩
    ⟨some "codeE", some "stE", none⟩ ⟨none, "tokensE"⟩ (by decide) (by decide) rfl
  ⟨h.1 rfl, h.2.trans (by decide)⟩

end LineLogin
